import Mathlib

/-!
Verification of `src/video/out/metal/generate_shader_header.py`.

The script reads a shader source file, escapes backslashes, double quotes
and newlines, wraps the result in a C string literal (splitting it across
lines at every source newline using adjacent-literal concatenation), and
writes a small generated header to the output path.

Strings are modelled as `List Char`.  Python's `str.replace` with a
single-character pattern is modelled by `replaceChar`, and the file system
by an association list from paths to contents.
-/

set_option autoImplicit false

namespace ShaderHeader

/-- Python's `s.replace(c, rep)` for a single-character pattern `c`:
every occurrence of `c` is replaced by `rep`, left to right. -/
def replaceChar (c : Char) (rep : List Char) : List Char → List Char
  | [] => []
  | a :: r => (if a = c then rep else [a]) ++ replaceChar c rep r

/-- The escaping pass of `generate_header`, lines 14-16 of the script:
`replace('\\', '\\\\')`, then `replace('"', '\\"')`, then
`replace('\n', '\\n"\n"')`, in that order. -/
def escape (s : List Char) : List Char :=
  replaceChar '\n' ['\\', 'n', '"', '\n', '"']
    (replaceChar '"' ['\\', '"']
      (replaceChar '\\' ['\\', '\\'] s))

/-- Per-character view of the composed escaping pass. -/
def escChar (c : Char) : List Char :=
  if c = '\\' then ['\\', '\\']
  else if c = '"' then ['\\', '"']
  else if c = '\n' then ['\\', 'n', '"', '\n', '"']
  else [c]

/-- Model of `os.path.basename` for POSIX paths: the segment after the
last slash. -/
def basename (p : List Char) : List Char :=
  p.foldl (fun acc c => if c = '/' then [] else acc ++ [c]) []

/-- The two comment lines and the blank line of the generated header. -/
def comment_lines (input_file : List Char) : List Char :=
  ("// Auto-generated from ").toList ++ basename input_file ++ ['\n'] ++
    ("// Do not edit manually").toList ++ ['\n', '\n']

/-- The string-literal part of the generated header: the escaped content
wrapped in one opening and one closing double quote. -/
def literal_payload (content : List Char) : List Char :=
  '"' :: escape content ++ ['"']

/-- The header text, assembled as on lines 19-21 of the script. -/
def header_content (input_file content : List Char) : List Char :=
  comment_lines input_file ++ literal_payload content ++ ['\n']

/-- Does `pat` occur at the very start of `s`? -/
def startsWith : List Char → List Char → Bool
  | [], _ => true
  | _ :: _, [] => false
  | p :: ps, a :: as => if p = a then startsWith ps as else false

/-- Number of positions at which `pat` occurs in `s`. -/
def countOccur (pat : List Char) : List Char → Nat
  | [] => 0
  | a :: r => (if startsWith pat (a :: r) then 1 else 0) + countOccur pat r

/-- Number of occurrences of the character `c` in `s`. -/
def countChar (c : Char) : List Char → Nat
  | [] => 0
  | a :: r => (if a = c then 1 else 0) + countChar c r

/-- The five-character line-splice point the newline substitution inserts:
backslash, `n`, closing quote, an actual newline, opening quote. -/
def splicePat : List Char := ['\\', 'n', '"', '\n', '"']

/-- Concatenating the literal segments of an escaped body: every separator
(closing quote, newline, opening quote) is removed, left to right. -/
def removeSeps : List Char → List Char
  | [] => []
  | a :: r =>
    if startsWith ['"', '\n', '"'] (a :: r) then removeSeps (r.drop 2)
    else a :: removeSeps r
termination_by s => s.length
decreasing_by
  all_goals simp
  omega

/-- Undoing the escapes inside a literal segment: two backslashes decode to
one backslash, backslash-quote to a quote, backslash-`n` to a newline;
every other character stands for itself. -/
def unescape : List Char → List Char
  | [] => []
  | a :: r =>
    if a = '\\' then
      match r with
      | [] => ['\\']
      | b :: r' => (if b = '"' then '"' else if b = 'n' then '\n' else b) :: unescape r'
    else a :: unescape r

theorem replaceChar_append (c : Char) (rep : List Char) (a b : List Char) :
    replaceChar c rep (a ++ b) = replaceChar c rep a ++ replaceChar c rep b := by
  induction a with
  | nil => rfl
  | cons x xs ih => simp [replaceChar, ih]

theorem escape_cons (a : Char) (s : List Char) :
    escape (a :: s) = escChar a ++ escape s := by
  by_cases h1 : a = '\\'
  · subst h1
    simp [escape, escChar, replaceChar, replaceChar_append]
  by_cases h2 : a = '"'
  · subst h2
    simp [escape, escChar, replaceChar, replaceChar_append, h1]
  by_cases h3 : a = '\n'
  · subst h3
    simp [escape, escChar, replaceChar, replaceChar_append]
  · simp [escape, escChar, replaceChar, h1, h2, h3]

theorem escape_nil : escape [] = [] := rfl

theorem escape_append (a b : List Char) :
    escape (a ++ b) = escape a ++ escape b := by
  simp [escape, replaceChar_append]

/-- The head of an escaped string is never a bare quote or a bare newline. -/
theorem escape_head_ne (s : List Char) (h : Char) (t : List Char)
    (he : escape s = h :: t) : h ≠ '"' ∧ h ≠ '\n' := by
  cases s with
  | nil => simp [escape, replaceChar] at he
  | cons a r =>
    rw [escape_cons] at he
    by_cases h1 : a = '\\'
    · subst h1; simp [escChar] at he; rw [← he.1]; decide
    by_cases h2 : a = '"'
    · subst h2; simp [escChar] at he; rw [← he.1]; decide
    by_cases h3 : a = '\n'
    · subst h3; simp [escChar] at he; rw [← he.1]; decide
    · simp [escChar, h1, h2, h3] at he
      constructor
      · rw [he.1] at h2; exact h2
      · rw [he.1] at h3; exact h3

/-- An escaped string never begins with `n`, quote, newline, quote:
such a tail would require a bare quote at the head of an escaped string. -/
theorem not_starts_n (s : List Char) :
    startsWith ['n', '"', '\n', '"'] (escape s) = false := by
  cases s with
  | nil => rfl
  | cons a r =>
    rw [escape_cons]
    by_cases h1 : a = '\\'
    · subst h1; simp [escChar, startsWith]
    by_cases h2 : a = '"'
    · subst h2; simp [escChar, startsWith, h1]
    by_cases h3 : a = '\n'
    · subst h3; simp [escChar, startsWith]
    · simp only [escChar, h1, h2, h3, if_false, List.singleton_append]
      by_cases h4 : a = 'n'
      · subst h4
        simp only [startsWith, if_pos rfl]
        cases he : escape r with
        | nil => rfl
        | cons h t =>
          have := escape_head_ne r h t he
          simp [startsWith, Ne.symm this.1]
      · simp [startsWith, Ne.symm h4]

/-- An escaped string never begins with newline, quote. -/
theorem not_starts_nl (s : List Char) :
    startsWith ['\n', '"'] (escape s) = false := by
  cases he : escape s with
  | nil => rfl
  | cons h t =>
    have := escape_head_ne s h t he
    simp [startsWith, Ne.symm this.2]

/-- Every newline of the input yields exactly one line-splice point in the
escaped body, and nothing else does. -/
theorem countOccur_escape (s : List Char) :
    countOccur splicePat (escape s) = countChar '\n' s := by
  simp only [splicePat]
  induction s with
  | nil => rfl
  | cons a r ih =>
    rw [escape_cons]
    by_cases h1 : a = '\\'
    · subst h1
      simp only [escChar, if_pos rfl, List.cons_append, List.nil_append]
      simp [countOccur, splicePat, startsWith, not_starts_n, ih, countChar]
    by_cases h2 : a = '"'
    · subst h2
      simp only [escChar, if_pos rfl, if_neg (by decide : ¬('"' : Char) = '\\'),
        List.cons_append, List.nil_append]
      simp [countOccur, splicePat, startsWith, ih, countChar, h1]
    by_cases h3 : a = '\n'
    · subst h3
      simp only [escChar, if_pos rfl, if_neg (by decide : ¬('\n' : Char) = '\\'),
        if_neg (by decide : ¬('\n' : Char) = '"'), List.cons_append, List.nil_append]
      simp [countOccur, splicePat, startsWith, ih, countChar]
    · simp only [escChar, h1, h2, h3, if_false, List.singleton_append]
      simp [countOccur, splicePat, startsWith, Ne.symm h1, ih, countChar, h3]

theorem removeSeps_nil : removeSeps [] = [] := by
  simp [removeSeps]

theorem removeSeps_cons_ne (a : Char) (r : List Char) (h : a ≠ '"') :
    removeSeps (a :: r) = a :: removeSeps r := by
  rw [removeSeps]
  simp [startsWith, Ne.symm h]

theorem removeSeps_sep (r : List Char) :
    removeSeps ('"' :: '\n' :: '"' :: r) = removeSeps r := by
  rw [removeSeps]
  simp [startsWith]

theorem removeSeps_quote (r : List Char) (h : startsWith ['\n', '"'] r = false) :
    removeSeps ('"' :: r) = '"' :: removeSeps r := by
  rw [removeSeps]
  simp [startsWith, h]

theorem unescape_cons_ne (a : Char) (r : List Char) (h : a ≠ '\\') :
    unescape (a :: r) = a :: unescape r := by
  cases r with
  | nil => simp [unescape, h]
  | cons b t => simp [unescape, h]

/-- Concatenating the literal segments of the escaped body and then undoing
the escapes recovers the original string. -/
theorem decode_escape (s : List Char) :
    unescape (removeSeps (escape s)) = s := by
  induction s with
  | nil => simp [escape, replaceChar, removeSeps_nil, unescape]
  | cons a r ih =>
    rw [escape_cons]
    by_cases h1 : a = '\\'
    · subst h1
      show unescape (removeSeps ('\\' :: '\\' :: escape r)) = '\\' :: r
      rw [removeSeps_cons_ne _ _ (by decide), removeSeps_cons_ne _ _ (by decide)]
      simp [unescape, ih]
    by_cases h2 : a = '"'
    · subst h2
      show unescape (removeSeps ('\\' :: '"' :: escape r)) = '"' :: r
      rw [removeSeps_cons_ne _ _ (by decide), removeSeps_quote _ (not_starts_nl r)]
      simp [unescape, ih]
    by_cases h3 : a = '\n'
    · subst h3
      show unescape (removeSeps ('\\' :: 'n' :: '"' :: '\n' :: '"' :: escape r)) = '\n' :: r
      rw [removeSeps_cons_ne _ _ (by decide), removeSeps_cons_ne _ _ (by decide),
        removeSeps_sep]
      simp [unescape, ih]
    · simp only [escChar, h1, h2, h3, if_false, List.singleton_append]
      rw [removeSeps_cons_ne _ _ h2, unescape_cons_ne _ _ h1, ih]

/-- A file system: an association list from paths to file contents.  The
first binding for a path wins. -/
abbrev FS : Type := List (List Char × List Char)

/-- Reading a file: `none` models a failing `open(input_file, 'r')`. -/
def lookupFS : FS → List Char → Option (List Char)
  | [], _ => none
  | (q, v) :: r, p => if q = p then some v else lookupFS r p

/-- Writing a file in mode `'w'`: the new binding shadows any old one, so
existing content is overwritten unconditionally. -/
def writeFS (fs : FS) (p v : List Char) : FS := (p, v) :: fs

/-- Outcome of one run of `generate_header`: either the input read raised
an IOError, leaving the file system as it was, or the run succeeded with a
new file system and a line printed to standard output. -/
inductive RunResult where
  | ioError (fs : FS)
  | ok (fs : FS) (printed : List Char)
deriving DecidableEq

/-- The file system after a run. -/
def RunResult.fsOf : RunResult → FS
  | .ioError fs => fs
  | .ok fs _ => fs

/-- The standard-output line of a run, if the run succeeded. -/
def RunResult.stdoutOf : RunResult → Option (List Char)
  | .ioError _ => none
  | .ok _ printed => some printed

/-- The confirmation line `print` emits on line 26 of the script. -/
def stdout_msg (output_file input_file : List Char) : List Char :=
  ("Generated ").toList ++ output_file ++ (" from ").toList ++ input_file ++ ['\n']

/-- One run of `generate_header(input_file, output_file)`: read the input
(the output file is touched only after this read succeeds), escape,
compose the header and write it, then print the confirmation line. -/
def run_generate_header (fs : FS) (input_file output_file : List Char) : RunResult :=
  match lookupFS fs input_file with
  | none => .ioError fs
  | some content =>
      .ok (writeFS fs output_file (header_content input_file content))
        (stdout_msg output_file input_file)

/-- The usage line printed when the argument count is wrong. -/
def usage_msg : List Char :=
  ("Usage: generate_shader_header.py <input.metal> <output.h>").toList

/-- The `__main__` block: with an argument count other than exactly three
(program name plus two positional arguments) it prints the usage line and
exits with code 1; otherwise it runs `generate_header` on the two
arguments.  Result: exit code, standard output, final file system. -/
def run_main (argv : List (List Char)) (fs : FS) : Nat × List Char × FS :=
  if argv.length = 3 then
    match run_generate_header fs (argv.getD 1 []) (argv.getD 2 []) with
    | .ioError fs' => (1, [], fs')
    | .ok fs' printed => (0, printed, fs')
  else (1, usage_msg ++ ['\n'], fs)

/-- On a string free of backslashes, quotes and newlines the escaping pass
is the identity. -/
theorem escape_id (s : List Char)
    (h : ∀ c ∈ s, c ≠ '\\' ∧ c ≠ '"' ∧ c ≠ '\n') : escape s = s := by
  induction s with
  | nil => rfl
  | cons a r ih =>
    have ha := h a (List.mem_cons_self a r)
    rw [escape_cons, escChar, if_neg ha.1, if_neg ha.2.1, if_neg ha.2.2,
      ih fun c hc => h c (List.mem_cons_of_mem a hc)]
    rfl

/-- Claim C1: for every input string with `n` newline characters the
escaped literal body contains exactly `n` line-splice points
(backslash-`n`, closing quote, an actual newline, opening quote), and
concatenating the literal segments in order and undoing the escapes
reproduces the input exactly. -/
theorem C1_splice_count_and_roundtrip (s : List Char) :
    countOccur splicePat (escape s) = countChar '\n' s ∧
    unescape (removeSeps (escape s)) = s :=
  ⟨countOccur_escape s, decode_escape s⟩

/-- The escaping pass is not idempotent on arbitrary already-escaped text:
a single backslash escapes to two, and escaping again doubles them. -/
theorem C3_counterexample : escape (escape ['\\']) ≠ escape ['\\'] := by
  decide

/-- Claim C3 (amended): on strings free of backslashes, quotes and
newlines — the only strings the first substitution leaves fixed — running
the three substitutions again leaves the escaped text unchanged. -/
theorem C3_idempotent_on_plain (s : List Char)
    (h : ∀ c ∈ s, c ≠ '\\' ∧ c ≠ '"' ∧ c ≠ '\n') :
    escape (escape s) = escape s := by
  simp only [escape_id s h]

theorem C3_witness :
    (∀ c ∈ ['a', 'b'], c ≠ '\\' ∧ c ≠ '"' ∧ c ≠ '\n') ∧
      escape (escape ['a', 'b']) = escape ['a', 'b'] :=
  ⟨by decide, C3_idempotent_on_plain ['a', 'b'] (by decide)⟩

/-- Claim C4: the input `say "hi"` followed by one backslash escapes to
`say \"hi\"` followed by two backslashes. -/
theorem C4_scenario_quotes_then_backslash :
    escape ['s', 'a', 'y', ' ', '"', 'h', 'i', '"', '\\'] =
      ['s', 'a', 'y', ' ', '\\', '"', 'h', 'i', '\\', '"', '\\', '\\'] := by
  decide

/-- Claim C5: for input free of backslashes, quotes and newlines the
literal payload of the generated output is exactly a quote, the input
unchanged, and a quote. -/
theorem C5_plain_payload (i s : List Char)
    (h : ∀ c ∈ s, c ≠ '\\' ∧ c ≠ '"' ∧ c ≠ '\n') :
    literal_payload s = '"' :: s ++ ['"'] ∧
    header_content i s = comment_lines i ++ ('"' :: s ++ ['"']) ++ ['\n'] := by
  constructor
  · rw [literal_payload, escape_id s h]
  · rw [header_content, literal_payload, escape_id s h]

theorem C5_witness :
    (∀ c ∈ ['a', 'b', 'c'], c ≠ '\\' ∧ c ≠ '"' ∧ c ≠ '\n') ∧
      (literal_payload ['a', 'b', 'c'] = '"' :: ['a', 'b', 'c'] ++ ['"'] ∧
        header_content ['i'] ['a', 'b', 'c'] =
          comment_lines ['i'] ++ ('"' :: ['a', 'b', 'c'] ++ ['"']) ++ ['\n']) :=
  ⟨by decide, C5_plain_payload ['i'] ['a', 'b', 'c'] (by decide)⟩

/-- Claim C2: on a readable input the run writes to the output path, whose
content afterwards is exactly the two comment lines (the first naming the
input's base name), a blank line, the escaped content in quotes and a
trailing newline; whatever the output path held before is overwritten. -/
theorem C2_output_format_and_overwrite (fs : FS) (i o content : List Char)
    (h : lookupFS fs i = some content) :
    run_generate_header fs i o =
      RunResult.ok (writeFS fs o (header_content i content)) (stdout_msg o i) ∧
    lookupFS (writeFS fs o (header_content i content)) o = some (header_content i content) ∧
    header_content i content =
      ("// Auto-generated from ").toList ++ basename i ++ ['\n'] ++
        ("// Do not edit manually").toList ++ ['\n', '\n'] ++
        ('"' :: escape content ++ ['"']) ++ ['\n'] := by
  refine ⟨?_, ?_, ?_⟩
  · simp [run_generate_header, h]
  · simp [lookupFS, writeFS]
  · simp [header_content, comment_lines, literal_payload]

theorem C2_witness :
    lookupFS [(['i'], ['x'])] ['i'] = some ['x'] ∧
      (run_generate_header [(['i'], ['x'])] ['i'] ['o'] =
          RunResult.ok (writeFS [(['i'], ['x'])] ['o'] (header_content ['i'] ['x']))
            (stdout_msg ['o'] ['i']) ∧
        lookupFS (writeFS [(['i'], ['x'])] ['o'] (header_content ['i'] ['x'])) ['o'] =
          some (header_content ['i'] ['x']) ∧
        header_content ['i'] ['x'] =
          ("// Auto-generated from ").toList ++ basename ['i'] ++ ['\n'] ++
            ("// Do not edit manually").toList ++ ['\n', '\n'] ++
            ('"' :: escape ['x'] ++ ['"']) ++ ['\n']) :=
  ⟨by decide, C2_output_format_and_overwrite [(['i'], ['x'])] ['i'] ['o'] ['x'] (by decide)⟩

/-- Claim C6: when the input path cannot be read, the run fails with the
IOError of the input read, the file system is left untouched (the output
is opened only after the input read succeeds), and the program exits with
a non-zero status. -/
theorem C6_missing_input (fs : FS) (p i o : List Char) (h : lookupFS fs i = none) :
    run_generate_header fs i o = RunResult.ioError fs ∧
    run_main [p, i, o] fs = (1, [], fs) := by
  constructor
  · simp [run_generate_header, h]
  · simp [run_main, run_generate_header, h]

theorem C6_witness :
    lookupFS [] ['a'] = none ∧
      (run_generate_header [] ['a'] ['b'] = RunResult.ioError [] ∧
        run_main [['p'], ['a'], ['b']] [] = (1, [], [])) :=
  ⟨rfl, C6_missing_input [] ['p'] ['a'] ['b'] rfl⟩

/-- Claim C7: with an argument count other than exactly two positional
arguments after the program name, the program prints the usage line to
standard output, exits with code 1, and touches no file. -/
theorem C7_wrong_arg_count (argv : List (List Char)) (fs : FS) (h : argv.length ≠ 3) :
    run_main argv fs = (1, usage_msg ++ ['\n'], fs) := by
  simp [run_main, h]

theorem C7_witness :
    ([['p'], ['a']] : List (List Char)).length ≠ 3 ∧
      run_main [['p'], ['a']] [] = (1, usage_msg ++ ['\n'], []) :=
  ⟨by decide, C7_wrong_arg_count [['p'], ['a']] [] (by decide)⟩

/-- Claim C8: when the input ends with a newline, the escaped body ends
with a line-splice, so the final content line of the output before the
trailing newline is an empty literal: two adjacent double quotes. -/
theorem C8_trailing_newline (i content : List Char) (h : ∃ u, content = u ++ ['\n']) :
    (∃ t, escape content = t ++ splicePat) ∧
    (∃ t, header_content i content = t ++ ['\n', '"', '"', '\n']) := by
  obtain ⟨u, rfl⟩ := h
  constructor
  · exact ⟨escape u, by rw [escape_append]; rfl⟩
  · refine ⟨comment_lines i ++ '"' :: (escape u ++ ['\\', 'n', '"']), ?_⟩
    have he : escape ['\n'] = ['\\', 'n', '"', '\n', '"'] := rfl
    rw [header_content, literal_payload, escape_append, he]
    simp

theorem C8_witness :
    (∃ u, ['\n'] = u ++ ['\n']) ∧
      ((∃ t, escape ['\n'] = t ++ splicePat) ∧
        (∃ t, header_content ['i'] ['\n'] = t ++ ['\n', '"', '"', '\n'])) :=
  ⟨⟨[], rfl⟩, C8_trailing_newline ['i'] ['\n'] ⟨[], rfl⟩⟩

/-- The stdout confirmation line names the full input path, so two runs
that agree on the input's base name and content (and on the output path)
can still print different confirmation lines. -/
theorem C9_counterexample :
    basename ['a', '/', 'x'] = basename ['b', '/', 'x'] ∧
    lookupFS [(['a', '/', 'x'], ['h'])] ['a', '/', 'x'] = some ['h'] ∧
    lookupFS [(['b', '/', 'x'], ['h'])] ['b', '/', 'x'] = some ['h'] ∧
    RunResult.stdoutOf (run_generate_header [(['a', '/', 'x'], ['h'])] ['a', '/', 'x'] ['o']) ≠
      RunResult.stdoutOf (run_generate_header [(['b', '/', 'x'], ['h'])] ['b', '/', 'x'] ['o']) := by
  decide

/-- Claim C9 (amended): the bytes written to the output path are a pure
function of the input's base name and content — two runs agreeing on
those write identical bytes; only the stdout line may differ, as it names
the full input path. -/
theorem C9_written_bytes_deterministic (fs1 fs2 : FS) (i1 i2 o c : List Char)
    (h1 : lookupFS fs1 i1 = some c) (h2 : lookupFS fs2 i2 = some c)
    (hb : basename i1 = basename i2) :
    lookupFS (RunResult.fsOf (run_generate_header fs1 i1 o)) o =
      lookupFS (RunResult.fsOf (run_generate_header fs2 i2 o)) o := by
  simp [run_generate_header, h1, h2, RunResult.fsOf, writeFS, lookupFS,
    header_content, comment_lines, hb]

theorem C9_witness :
    lookupFS [(['a', '/', 'x'], ['h'])] ['a', '/', 'x'] = some ['h'] ∧
      lookupFS [(['b', '/', 'x'], ['h'])] ['b', '/', 'x'] = some ['h'] ∧
      basename ['a', '/', 'x'] = basename ['b', '/', 'x'] ∧
      lookupFS
          (RunResult.fsOf (run_generate_header [(['a', '/', 'x'], ['h'])] ['a', '/', 'x'] ['o']))
          ['o'] =
        lookupFS
          (RunResult.fsOf (run_generate_header [(['b', '/', 'x'], ['h'])] ['b', '/', 'x'] ['o']))
          ['o'] :=
  ⟨by decide, by decide, by decide,
    C9_written_bytes_deterministic [(['a', '/', 'x'], ['h'])] [(['b', '/', 'x'], ['h'])]
      ['a', '/', 'x'] ['b', '/', 'x'] ['o'] ['h'] (by decide) (by decide) (by decide)⟩

/-- Claim C10: for an empty input the output is exactly the two comment
lines, a blank line, and an empty string literal followed by the trailing
newline. -/
theorem C10_empty_input (i : List Char) :
    header_content i [] =
      ("// Auto-generated from ").toList ++ basename i ++ ['\n'] ++
        ("// Do not edit manually").toList ++ ['\n', '\n'] ++ ['"', '"', '\n'] := by
  simp [header_content, comment_lines, literal_payload, escape, replaceChar]

end ShaderHeader
